import Mathlib

/-!
Verification development for the Zerodha/yfinance backtesting workflow
(`src/main.py`).  The Python program is shallowly embedded: every external
effect (SDK call, provider download, file read/write, directory creation)
is represented by an explicit oracle argument giving that call's outcome,
the file system is an explicit value threaded through the operations, and
Python exceptions are modelled with `Except String`.  A `try/except` in the
source becomes explicit branching on the oracle outcome; an external call
that the source does NOT guard becomes an `Except.error` result that
propagates to the caller of the embedded operation.

Python `float`/`int` values written to and parsed from CSV text are
modelled exactly, over the fragment the program actually emits: finite
non-negative decimals (`Dec`, value `num / 10 ^ exp`) and unsigned
integers.  `float(...)`/`int(...)` coercions are modelled by parsers of
plain unsigned decimal literals; forms the program never writes
(signs, exponents, `inf`) are outside the modelled fragment.
-/

-- ============================================================
-- Configuration (class Config, src/main.py lines 16-35)
-- ============================================================

namespace Config

def STOCKS : List String :=
  ["RELIANCE", "TCS", "INFY", "HDFCBANK", "ICICIBANK",
   "HINDUNILVR", "ITC", "SBIN", "BHARTIARTL", "LT"]

def TICKER_MAP : List (String × String) :=
  [("RELIANCE", "RELIANCE.NS"), ("TCS", "TCS.NS"), ("INFY", "INFY.NS"),
   ("HDFCBANK", "HDFCBANK.NS"), ("ICICIBANK", "ICICIBANK.NS"),
   ("HINDUNILVR", "HINDUNILVR.NS"), ("ITC", "ITC.NS"), ("SBIN", "SBIN.NS"),
   ("BHARTIARTL", "BHARTIARTL.NS"), ("LT", "LT.NS")]

def DATA_DIR : String := "historical_data"

def TOKEN_FILE : String := "access_token.txt"

end Config

-- ============================================================
-- Numeric text layer: Python str()/float()/int() on the
-- plain-decimal fragment
-- ============================================================

/-- A finite non-negative decimal number, the model of the Python floats the
program handles (spec data-model invariant: prices are finite non-negative
decimal values).  Its rational value is `num / 10 ^ exp`. -/
structure Dec where
  num : Nat
  exp : Nat
deriving DecidableEq

def Dec.val (d : Dec) : ℚ := (d.num : ℚ) / 10 ^ d.exp

/-- One decimal digit accumulation step of a base-10 string parse. -/
def step10 (a : Nat) (c : Char) : Nat := 10 * a + (c.toNat - 48)

/-- Numeric value of a digit string, as Python `int`/`float` accumulate it. -/
def digitsVal (cs : List Char) : Nat := cs.foldl step10 0

def isDig (c : Char) : Bool := decide ('0' ≤ c) && decide (c ≤ '9')

/-- Big-endian decimal digits of `n`, fuel-indexed so that it is structural
(any `fuel` with `n < 10 ^ fuel` gives all digits). -/
def natChars : Nat → Nat → List Char
  | 0, _ => []
  | fuel + 1, n =>
    if n = 0 then [] else natChars fuel (n / 10) ++ [Nat.digitChar (n % 10)]

/-- Decimal digit string of `n`, the model of Python `str` on a
non-negative integer. -/
def natStr (n : Nat) : List Char :=
  if n = 0 then ['0'] else natChars (n + 1) n

def padZeros (k : Nat) (cs : List Char) : List Char :=
  List.replicate (k - cs.length) '0' ++ cs

/-- Text form of a `Dec`, the model of Python `str` on the floats the
program writes to CSV: integer part, then `exp` fractional digits. -/
def renderDec (d : Dec) : String :=
  if d.exp = 0 then ⟨natStr d.num⟩
  else ⟨natStr (d.num / 10 ^ d.exp) ++ '.' :: padZeros d.exp (natStr (d.num % 10 ^ d.exp))⟩

def renderNat (n : Nat) : String := ⟨natStr n⟩

/-- Model of Python `float(s)` on the plain unsigned decimal fragment:
digits, optionally a dot and more digits, at least one digit overall.
Returns the exact rational value, `none` when the coercion fails. -/
def parseFloatCore (cs : List Char) : Option ℚ :=
  match cs.dropWhile isDig with
  | [] =>
    if cs.takeWhile isDig = [] then none
    else some ((digitsVal (cs.takeWhile isDig) : ℚ))
  | c :: b =>
    if c = '.' then
      if b.all isDig = true then
        if cs.takeWhile isDig = [] ∧ b = [] then none
        else some ((digitsVal (cs.takeWhile isDig) : ℚ) + (digitsVal b : ℚ) / 10 ^ b.length)
      else none
    else none

def parseFloat (s : String) : Option ℚ := parseFloatCore s.data

/-- Model of Python `int(s)` on unsigned integer literals: all digits,
non-empty; `none` when the coercion fails. -/
def parseNatCore (cs : List Char) : Option Nat :=
  if cs ≠ [] ∧ cs.all isDig = true then some (digitsVal cs) else none

def parseNat (s : String) : Option Nat := parseNatCore s.data

-- ============================================================
-- Round-trip lemmas for the numeric text layer
-- ============================================================

theorem digitChar_spec (r : Nat) (hr : r < 10) :
    (Nat.digitChar r).toNat - 48 = r ∧ isDig (Nat.digitChar r) = true := by
  interval_cases r <;> exact ⟨rfl, rfl⟩

theorem natChars_foldl (fuel : Nat) :
    ∀ n a, n < 10 ^ fuel →
      (natChars fuel n).foldl step10 a = a * 10 ^ (natChars fuel n).length + n := by
  induction fuel with
  | zero =>
    intro n a hn
    interval_cases n
    simp [natChars]
  | succ fuel ih =>
    intro n a hn
    by_cases h0 : n = 0
    · simp [natChars, h0]
    · have hdiv : n / 10 < 10 ^ fuel := by
        rw [Nat.div_lt_iff_lt_mul (by norm_num)]
        calc n < 10 ^ (fuel + 1) := hn
        _ = 10 ^ fuel * 10 := by ring
      have hmod : n % 10 < 10 := Nat.mod_lt _ (by norm_num)
      obtain ⟨hd1, _⟩ := digitChar_spec (n % 10) hmod
      simp only [natChars, h0, if_false, List.foldl_append, List.length_append,
        List.foldl_cons, List.foldl_nil, List.length_cons, List.length_nil]
      rw [ih (n / 10) a hdiv, step10, hd1]
      have := Nat.div_add_mod n 10
      ring_nf
      omega

theorem natChars_isDig (fuel : Nat) :
    ∀ n c, c ∈ natChars fuel n → isDig c = true := by
  induction fuel with
  | zero => intro n c hc; simp [natChars] at hc
  | succ fuel ih =>
    intro n c hc
    by_cases h0 : n = 0
    · simp [natChars, h0] at hc
    · simp only [natChars, h0, if_false, List.mem_append, List.mem_singleton] at hc
      rcases hc with hc | hc
      · exact ih _ _ hc
      · subst hc
        exact (digitChar_spec (n % 10) (Nat.mod_lt _ (by norm_num))).2

theorem natChars_length_le (fuel : Nat) :
    ∀ n k, n < 10 ^ k → (natChars fuel n).length ≤ k := by
  induction fuel with
  | zero => intro n k _; simp [natChars]
  | succ fuel ih =>
    intro n k hk
    by_cases h0 : n = 0
    · simp [natChars, h0]
    · match k with
      | 0 => simp at hk; omega
      | k + 1 =>
        have hdiv : n / 10 < 10 ^ k := by
          rw [Nat.div_lt_iff_lt_mul (by norm_num)]
          calc n < 10 ^ (k + 1) := hk
          _ = 10 ^ k * 10 := by ring
        simp only [natChars, h0, if_false, List.length_append, List.length_cons,
          List.length_nil]
        have := ih (n / 10) k hdiv
        omega

theorem digitsVal_natStr (n : Nat) : digitsVal (natStr n) = n := by
  by_cases h0 : n = 0
  · subst h0; rfl
  · have hn : n < 10 ^ (n + 1) := by
      calc n < 2 ^ n := Nat.lt_two_pow n
      _ ≤ 10 ^ n := Nat.pow_le_pow_left (by norm_num) n
      _ ≤ 10 ^ (n + 1) := Nat.pow_le_pow_right (by norm_num) (Nat.le_succ n)
    have := natChars_foldl (n + 1) n 0 hn
    simp only [natStr, h0, if_false, digitsVal]
    omega

theorem natStr_isDig (n : Nat) : ∀ c ∈ natStr n, isDig c = true := by
  intro c hc
  by_cases h0 : n = 0
  · simp [natStr, h0] at hc; subst hc; rfl
  · simp only [natStr, h0, if_false] at hc
    exact natChars_isDig _ _ _ hc

theorem natStr_ne_nil (n : Nat) : natStr n ≠ [] := by
  by_cases h0 : n = 0
  · simp [natStr, h0]
  · simp [natStr, natChars, h0]

theorem natStr_length_le (n k : Nat) (hk : 1 ≤ k) (hn : n < 10 ^ k) :
    (natStr n).length ≤ k := by
  by_cases h0 : n = 0
  · simp [natStr, h0]; omega
  · simp only [natStr, h0, if_false]
    exact natChars_length_le _ _ _ hn

theorem foldl_replicate_zero (k : Nat) :
    List.foldl step10 0 (List.replicate k '0') = 0 := by
  induction k with
  | zero => rfl
  | succ k ih => simpa [List.replicate_succ, step10] using ih

theorem digitsVal_padZeros (k : Nat) (cs : List Char) :
    digitsVal (padZeros k cs) = digitsVal cs := by
  simp [padZeros, digitsVal, List.foldl_append, foldl_replicate_zero]

theorem padZeros_length (k : Nat) (cs : List Char) (h : cs.length ≤ k) :
    (padZeros k cs).length = k := by
  simp [padZeros]
  omega

theorem padZeros_isDig (k : Nat) (cs : List Char) (h : ∀ c ∈ cs, isDig c = true) :
    ∀ c ∈ padZeros k cs, isDig c = true := by
  intro c hc
  simp only [padZeros, List.mem_append, List.mem_replicate] at hc
  rcases hc with ⟨_, hc⟩ | hc
  · subst hc; rfl
  · exact h c hc

theorem takeWhile_all {p : Char → Bool} :
    ∀ {xs : List Char}, (∀ c ∈ xs, p c = true) →
      xs.takeWhile p = xs ∧ xs.dropWhile p = [] := by
  intro xs
  induction xs with
  | nil => intro _; exact ⟨rfl, rfl⟩
  | cons x xs ih =>
    intro h
    have hx : p x = true := h x (List.mem_cons_self x xs)
    have := ih (fun c hc => h c (List.mem_cons_of_mem x hc))
    simp [List.takeWhile_cons, List.dropWhile_cons, hx, this.1, this.2]

theorem takeWhile_append {p : Char → Bool} {y : Char} :
    ∀ {xs ys : List Char}, (∀ c ∈ xs, p c = true) → p y = false →
      (xs ++ y :: ys).takeWhile p = xs ∧ (xs ++ y :: ys).dropWhile p = y :: ys := by
  intro xs ys
  induction xs with
  | nil => intro _ hy; simp [List.takeWhile_cons, List.dropWhile_cons, hy]
  | cons x xs ih =>
    intro h hy
    have hx : p x = true := h x (List.mem_cons_self x xs)
    have := ih (fun c hc => h c (List.mem_cons_of_mem x hc)) hy
    simp [List.takeWhile_cons, List.dropWhile_cons, hx, this.1, this.2]

theorem parseNatCore_natStr (n : Nat) : parseNatCore (natStr n) = some n := by
  have h2 : (natStr n).all isDig = true := List.all_eq_true.mpr (natStr_isDig n)
  rw [parseNatCore, if_pos ⟨natStr_ne_nil n, h2⟩, digitsVal_natStr]

theorem parseNat_renderNat (n : Nat) : parseNat (renderNat n) = some n :=
  parseNatCore_natStr n

theorem parseFloatCore_allDigits (cs : List Char) (hne : cs ≠ [])
    (hdig : ∀ c ∈ cs, isDig c = true) :
    parseFloatCore cs = some ((digitsVal cs : ℚ)) := by
  obtain ⟨ht, hd⟩ := takeWhile_all hdig
  rw [parseFloatCore]
  split
  · next heq =>
    rw [ht]
    rw [if_neg hne]
  · next c b heq =>
    rw [hd] at heq
    exact absurd heq (by simp)

theorem parseFloat_renderDec (d : Dec) : parseFloat (renderDec d) = some d.val := by
  by_cases he : d.exp = 0
  · have h1 : (renderDec d).data = natStr d.num := by simp [renderDec, he]
    rw [parseFloat, h1, parseFloatCore_allDigits _ (natStr_ne_nil d.num) (natStr_isDig d.num),
      digitsVal_natStr, Dec.val, he]
    norm_num
  · set q := d.num / 10 ^ d.exp with hq
    set r := d.num % 10 ^ d.exp with hr
    set b := padZeros d.exp (natStr r) with hb
    have h1 : (renderDec d).data = natStr q ++ '.' :: b := by
      simp [renderDec, he]
    have hrlt : r < 10 ^ d.exp := Nat.mod_lt _ (Nat.pos_pow_of_pos _ (by norm_num))
    have hblen : b.length = d.exp :=
      padZeros_length _ _ (natStr_length_le r d.exp (by omega) hrlt)
    have hbdig : b.all isDig = true :=
      List.all_eq_true.mpr (padZeros_isDig _ _ (natStr_isDig r))
    obtain ⟨ht, hd⟩ := takeWhile_append (natStr_isDig q) (by rfl : isDig '.' = false)
    have hval : (digitsVal (natStr q) : ℚ) + (digitsVal b : ℚ) / 10 ^ b.length = d.val := by
      rw [digitsVal_natStr, hb, digitsVal_padZeros, digitsVal_natStr, hblen]
      have hnat : 10 ^ d.exp * q + r = d.num := Nat.div_add_mod d.num (10 ^ d.exp)
      have hnum : (10 : ℚ) ^ d.exp * (q : ℚ) + (r : ℚ) = (d.num : ℚ) := by
        exact_mod_cast hnat
      have hpow : ((10 : ℚ) ^ d.exp) ≠ 0 := by positivity
      rw [Dec.val, ← hnum]
      field_simp
      ring
    rw [parseFloat, h1, parseFloatCore]
    split
    · next heq =>
      rw [hd] at heq
      exact absurd heq (by simp)
    · next c bb heq =>
      rw [hd] at heq
      injection heq with hc hbb
      subst hc
      subst hbb
      rw [if_pos rfl, if_pos hbdig, ht]
      rw [if_neg (by intro hcon; exact natStr_ne_nil q hcon.1), hval]

-- ============================================================
-- File-system model
-- ============================================================

/-- A CSV file as the csv module sees it: a list of lines, each a list of
cell strings (the header line included). -/
abbrev CsvFile := List (List String)

/-- The storage area: whether `Config.DATA_DIR` exists, and the files in it
(name to structured content). -/
structure StorageFS where
  dirExists : Bool
  files : List (String × CsvFile)
deriving DecidableEq

def setAssoc : List (String × CsvFile) → String → CsvFile → List (String × CsvFile)
  | [], n, c => [(n, c)]
  | (k, v) :: rest, n, c =>
    if k == n then (k, c) :: rest else (k, v) :: setAssoc rest n c

def StorageFS.getFile (fs : StorageFS) (name : String) : Option CsvFile :=
  (fs.files.find? (fun p => p.1 == name)).map (fun p => p.2)

def StorageFS.setFile (fs : StorageFS) (name : String) (content : CsvFile) : StorageFS :=
  ⟨fs.dirExists, setAssoc fs.files name content⟩

/-- `True` exactly on the `Except.ok` branch: the embedded operation
completed without an uncaught Python exception. -/
def exceptOk {α : Type} : Except String α → Bool
  | .ok _ => true
  | .error _ => false

-- ============================================================
-- AuthenticationManager (src/main.py lines 42-99)
-- ============================================================

/-- In-memory state of `AuthenticationManager`: the `access_token`
attribute, the token installed on the `KiteConnect` client via
`set_access_token`, and the `authenticated` flag. -/
structure AuthManager where
  access_token : Option String
  kiteToken : Option String
  authenticated : Bool
deriving DecidableEq

def is_authenticated (m : AuthManager) : Bool := m.authenticated

/-- Model of Python `str.strip()` (common whitespace). -/
def isSpace (c : Char) : Bool := c == ' ' || c == '\t' || c == '\n' || c == '\r'

def pyStrip (s : String) : String :=
  ⟨((s.data.dropWhile isSpace).reverse.dropWhile isSpace).reverse⟩

/-- `load_existing_token` (lines 51-63).  `fileExists` is the
`os.path.exists` answer for `Config.TOKEN_FILE`; `readResult` is the
outcome of `open(...).read()` (its failure is caught by the `except`,
surfacing as `False`).  Returns (new manager state, return value); the
`Except` result type records that no exception escapes. -/
def load_existing_token (fileExists : Bool) (readResult : Except String String)
    (m : AuthManager) : Except String (AuthManager × Bool) :=
  if fileExists then
    match readResult with
    | .ok s =>
      .ok (⟨some (pyStrip s), some (pyStrip s), true⟩, true)
    | .error _ => .ok (m, false)
  else .ok (m, false)

/-- `__init__` (lines 45-49): fresh attributes, then `load_existing_token`.
`load_existing_token` never raises; the error branch is unreachable. -/
def newAuthManager (fileExists : Bool) (readResult : Except String String) : AuthManager :=
  match load_existing_token fileExists readResult ⟨none, none, false⟩ with
  | .ok (m, _) => m
  | .error _ => ⟨none, none, false⟩

/-- The dict returned by `kite.generate_session`; `access_token = none`
models a malformed response without that key (`data["access_token"]`
raises `KeyError`, caught by the `except`). -/
structure SessionData where
  access_token : Option String
  user_name : Option String
deriving DecidableEq

/-- `authenticate_with_token` (lines 72-95).  `sessionResult` is the
outcome of the `generate_session` network call; `openOk` of
`open(Config.TOKEN_FILE, 'w')` (which truncates the file on success);
`writeOk` of `f.write(...)`.  `tokenFile` is the credential-file content
(`none` when absent).  Returns (manager, credential file, return value).
Every failure is caught by the `except`, which sets `authenticated = False`
and returns `False`, leaving the other attributes as they were at the
point of failure. -/
def authenticate_with_token (sessionResult : Except String SessionData)
    (openOk writeOk : Bool) (m : AuthManager) (tokenFile : Option String) :
    Except String (AuthManager × Option String × Bool) :=
  match sessionResult with
  | .error _ => .ok (⟨m.access_token, m.kiteToken, false⟩, tokenFile, false)
  | .ok data =>
    match data.access_token with
    | none => .ok (⟨m.access_token, m.kiteToken, false⟩, tokenFile, false)
    | some tok =>
      if openOk then
        if writeOk then .ok (⟨some tok, some tok, true⟩, some tok, true)
        else .ok (⟨some tok, some tok, false⟩, some "", false)
      else .ok (⟨some tok, some tok, false⟩, tokenFile, false)

-- ============================================================
-- MarketDataFetcher (src/main.py lines 106-185)
-- ============================================================

/-- One OHLCV candle as built by `fetch_historical_data` (line 139-146):
date kept in its text form, prices as the finite decimals the floats hold,
volume a non-negative integer. -/
structure Candle where
  date : String
  open_ : Dec
  high : Dec
  low : Dec
  close : Dec
  volume : Nat
deriving DecidableEq

/-- A row of the provider's dataframe; `hasVolume = false` models a row
without a `Volume` column (the source then stores 0). -/
structure RawRow where
  date : String
  open_ : Dec
  high : Dec
  low : Dec
  close : Dec
  volume : Nat
  hasVolume : Bool
deriving DecidableEq

def convertRow (r : RawRow) : Candle :=
  ⟨r.date, r.open_, r.high, r.low, r.close, if r.hasVolume then r.volume else 0⟩

/-- `Config.TICKER_MAP.get(symbol, symbol + ".NS")` (line 115). -/
def resolveTicker (symbol : String) : String :=
  match Config.TICKER_MAP.find? (fun p => p.1 == symbol) with
  | some p => p.2
  | none => symbol ++ ".NS"

/-- `fetch_historical_data` (lines 112-153).  `downloadResult ticker days`
is the outcome of the `yf.download` call (the date window is derived from
the wall clock and `days`, so the oracle takes `days` directly).  The
whole body is inside `try`: any failure is caught and surfaced as `None`;
an empty download is also `None`.  The fixed rate-limit sleep has no
observable effect in the model. -/
def fetch_historical_data (downloadResult : String → Nat → Except String (List RawRow))
    (symbol : String) (days : Nat) : Except String (Option (List Candle)) :=
  match downloadResult (resolveTicker symbol) days with
  | .error _ => .ok none
  | .ok rows =>
    if rows.isEmpty then .ok none
    else .ok (some (rows.map convertRow))

def headerRow : List String := ["date", "open", "high", "low", "close", "volume"]

/-- One `writer.writerow` dict (lines 172-179), in the fixed field order. -/
def renderCandle (c : Candle) : List String :=
  [c.date, renderDec c.open_, renderDec c.high, renderDec c.low,
   renderDec c.close, renderNat c.volume]

/-- `save_data_to_csv` (lines 155-185).  `if not data:` refuses `None` and
the empty list.  `writeOk` is the outcome of the whole guarded
`open/writeheader/writerow` block; its failure is caught and reported as
`False` (the partially written file is not modelled, no property here
depends on it).  On success the symbol's CSV holds the header line and one
line per candle. -/
def save_data_to_csv (writeOk : Bool) (symbol : String) (data : Option (List Candle))
    (fs : StorageFS) : Except String (StorageFS × Bool) :=
  match data with
  | none => .ok (fs, false)
  | some [] => .ok (fs, false)
  | some cs =>
    if writeOk then
      .ok (fs.setFile (symbol ++ ".csv") (headerRow :: cs.map renderCandle), true)
    else .ok (fs, false)

-- ============================================================
-- DataStorageManager (src/main.py lines 192-255)
-- ============================================================

/-- `setup_directories` (lines 195-201).  The `os.makedirs` call is NOT
guarded by any `try`: when the directory is absent and the call fails, the
exception propagates out of the method (hence the `.error` branch). -/
def setup_directories (makedirsOk : Bool) (fs : StorageFS) :
    Except String (StorageFS × Bool) :=
  if fs.dirExists then .ok (fs, true)
  else if makedirsOk then .ok (⟨true, fs.files⟩, true)
  else .error "makedirs failed"

/-- First index of `name` in the header, modelling the key lookup of the
dict `csv.DictReader` builds per row. -/
def findIndex (name : String) : List String → Option Nat
  | [] => none
  | h :: t => if h == name then some 0 else (findIndex name t).map (fun i => i + 1)

/-- `row[name]` on a `DictReader` row: position of `name` in the header,
then that cell of the line (`none` models `KeyError`, or the `None`
rest-value of a short row, on which the numeric coercion then raises). -/
def rowDict (hdr row : List String) (name : String) : Option String :=
  (findIndex name hdr).bind (fun i => row.get? i)

def parseField (hdr row : List String) (name : String) : Option ℚ :=
  (rowDict hdr row name).bind parseFloat

/-- One parsed CSV candle as `load_csv` builds it (lines 216-223). -/
structure LoadedCandle where
  date : String
  open_ : ℚ
  high : ℚ
  low : ℚ
  close : ℚ
  volume : Nat
deriving DecidableEq

/-- The per-row dict built at lines 216-223: every lookup and numeric
coercion must succeed, otherwise the row raises (caught further out). -/
def parseRow (hdr row : List String) : Option LoadedCandle :=
  (rowDict hdr row "date").bind (fun d =>
  (parseField hdr row "open").bind (fun o =>
  (parseField hdr row "high").bind (fun h =>
  (parseField hdr row "low").bind (fun l =>
  (parseField hdr row "close").bind (fun c =>
  ((rowDict hdr row "volume").bind parseNat).bind (fun v =>
  some ⟨d, o, h, l, c, v⟩))))))

/-- The `for row in reader` loop: rows are appended in order; the first
failing row aborts the whole parse (the exception is caught by the
enclosing `except`, discarding everything accumulated so far). -/
def parseRows (hdr : List String) : List (List String) → Option (List LoadedCandle)
  | [] => some []
  | r :: rs => (parseRow hdr r).bind (fun c => (parseRows hdr rs).map (fun cs => c :: cs))

/-- `load_csv` (lines 203-227).  Absent file: `None` (not an error).
`readOk` is the outcome of opening/reading the file; its failure and any
row parse failure are caught by the `except` and surfaced as `None`.  An
empty file, or a header with no data rows, yields the empty list. -/
def load_csv (readOk : Bool) (fs : StorageFS) (symbol : String) :
    Except String (Option (List LoadedCandle)) :=
  match fs.getFile (symbol ++ ".csv") with
  | none => .ok none
  | some lines =>
    if readOk then
      match lines with
      | [] => .ok (some [])
      | hdr :: body =>
        match parseRows hdr body with
        | some data => .ok (some data)
        | none => .ok none
    else .ok none

/-- Model of `f.endswith('.csv')` (line 241). -/
def endsCsv (f : String) : Bool :=
  match f.data.reverse with
  | 'v' :: 's' :: 'c' :: '.' :: _ => true
  | _ => false

/-- Model of `s.replace('.csv', '')` (line 251): remove every
non-overlapping occurrence of `.csv`, scanning left to right. -/
def removeCsv : List Char → List Char
  | '.' :: 'c' :: 's' :: 'v' :: rest => removeCsv rest
  | c :: rest => c :: removeCsv rest
  | [] => []

def stripCsv (f : String) : String := ⟨removeCsv f.data⟩

/-- The missing-set computation of `get_status_report` (line 251):
configured stocks minus the names of the present `.csv` files with every
`.csv` occurrence removed. -/
def statusMissing (fileNames : List String) : List String :=
  Config.STOCKS.filter
    (fun s => !(((fileNames.filter endsCsv).map stripCsv).contains s))

def insertSorted (x : String) : List String → List String
  | [] => [x]
  | y :: ys => if decide (x ≤ y) then x :: y :: ys else y :: insertSorted x ys

/-- Model of Python `sorted` on file names (line 244). -/
def sortStrings : List String → List String
  | [] => []
  | x :: xs => insertSorted x (sortStrings xs)

/-- Outcomes of the unguarded per-file calls of `get_status_report`:
`os.listdir`, `os.path.getsize`, and `open(...).readlines()` (the latter
modelled by the resulting line count). -/
structure StatusOracle where
  listdirOk : Bool
  sizeResult : String → Except String Nat
  lineResult : String → Except String Nat

structure StatusReport where
  fileInfos : List (String × Nat × Nat)
  missing : List String
deriving DecidableEq

/-- The `for f in sorted(csv_files)` loop (lines 244-249): per file, size
then line count minus one; none of it is guarded, so a failure propagates. -/
def statLoop (o : StatusOracle) : List String → Except String (List (String × Nat × Nat))
  | [] => .ok []
  | f :: rest => do
    let size ← o.sizeResult f
    let lines ← o.lineResult f
    let others ← statLoop o rest
    .ok ((f, size, lines - 1) :: others)

/-- `get_status_report` (lines 229-255).  Early return (`none`) when the
data directory is absent; otherwise the whole body runs with NO exception
handling, so any listdir/getsize/read failure escapes. -/
def get_status_report (o : StatusOracle) (fs : StorageFS) :
    Except String (Option StatusReport) :=
  if fs.dirExists = false then .ok none
  else do
    let files ← (if o.listdirOk then .ok (fs.files.map (fun p => p.1))
                 else .error "listdir failed" : Except String (List String))
    let csv_files := files.filter endsCsv
    let infos ← statLoop o (sortStrings csv_files)
    .ok (some ⟨infos, statusMissing files⟩)

-- ============================================================
-- ZerodhaBacktestingWorkflow and quick-start functions
-- (src/main.py lines 262-372)
-- ============================================================

/-- Oracles for one `fetch_and_save_data` run: per-ticker download
outcome, per-symbol CSV write outcome, and the `os.makedirs` outcome. -/
structure FetchEnv where
  downloadResult : String → Nat → Except String (List RawRow)
  saveOk : String → Bool
  makedirsOk : Bool

/-- Whether `fetch_historical_data` followed by `save_data_to_csv`
succeeds for `s` under `env`: the download must return rows and the
write must go through. -/
def symbolSucceeds (env : FetchEnv) (days : Nat) (s : String) : Bool :=
  match env.downloadResult (resolveTicker s) days with
  | .ok (_ :: _) => env.saveOk s
  | _ => false

/-- The `for symbol in Config.STOCKS` loop (lines 309-312).  Returns the
final file system, the symbols visited in order, the number of provider
download calls issued, and `success_count`. -/
def fetchLoop (env : FetchEnv) (days : Nat) :
    List String → StorageFS → Except String (StorageFS × List String × Nat × Nat)
  | [], fs => .ok (fs, [], 0, 0)
  | s :: rest, fs => do
    let data ← fetch_historical_data env.downloadResult s days
    let (fs1, ok) ← save_data_to_csv (env.saveOk s) s data fs
    let (fs2, visited, net, succ) ← fetchLoop env days rest fs1
    .ok (fs2, s :: visited, net + 1, (if ok then 1 else 0) + succ)

/-- `fetch_and_save_data` (lines 289-315).  Guarded by
`is_authenticated()`: when false it returns `False` having touched
nothing.  Otherwise `setup_directories` runs UNGUARDED (its failure
propagates), then the loop.  Returns (file system, return value, visited
symbols, download calls, success count). -/
def fetch_and_save_data (env : FetchEnv) (auth : AuthManager) (fs : StorageFS)
    (days : Nat) : Except String (StorageFS × Bool × List String × Nat × Nat) :=
  if is_authenticated auth = false then .ok (fs, false, [], 0, 0)
  else do
    let (fs1, _) ← setup_directories env.makedirsOk fs
    let (fs2, visited, net, succ) ← fetchLoop env days Config.STOCKS fs1
    .ok (fs2, true, visited, net, succ)

/-- Python `min` over close prices: raises on an empty sequence. -/
def pyMin : List ℚ → Except String ℚ
  | [] => .error "min arg is an empty sequence"
  | x :: xs => .ok (xs.foldl min x)

/-- Python `max` over close prices: raises on an empty sequence. -/
def pyMax : List ℚ → Except String ℚ
  | [] => .error "max arg is an empty sequence"
  | x :: xs => .ok (xs.foldl max x)

/-- Python `closes[-1]`: raises on an empty list. -/
def pyLast (l : List ℚ) : Except String ℚ :=
  match l.getLast? with
  | none => .error "list index out of range"
  | some x => .ok x

structure SymbolStats where
  records : Nat
  minClose : ℚ
  maxClose : ℚ
  current : ℚ
deriving DecidableEq

/-- The per-symbol body of `analyze_data` (lines 365-372): load, skip when
falsy (`None` or `[]`), otherwise record count, min/max close, last close. -/
def analyzeSymbol (readOk : Bool) (fs : StorageFS) (symbol : String) :
    Except String (Option SymbolStats) := do
  let dataOpt ← load_csv readOk fs symbol
  match dataOpt with
  | none => .ok none
  | some data =>
    match data with
    | [] => .ok none
    | _ :: _ => do
      let closes := data.map (fun d => d.close)
      let mn ← pyMin closes
      let mx ← pyMax closes
      let cur ← pyLast closes
      .ok (some ⟨data.length, mn, mx, cur⟩)

def analyzeLoop (readOk : Bool) (fs : StorageFS) :
    List String → Except String (List (String × Option SymbolStats))
  | [] => .ok []
  | s :: rest => do
    let r ← analyzeSymbol readOk fs s
    let others ← analyzeLoop readOk fs rest
    .ok ((s, r) :: others)

/-- `analyze_data` (lines 357-372): iterate the configured stocks. -/
def analyze_data (readOk : Bool) (fs : StorageFS) :
    Except String (List (String × Option SymbolStats)) :=
  analyzeLoop readOk fs Config.STOCKS

-- ============================================================
-- C1: authentication state machine
-- ============================================================

/-- C1: `is_authenticated` is false for a freshly constructed manager when
no credential file exists; true immediately after a successful
`load_existing_token` or `authenticate_with_token`; false after an
`authenticate_with_token` call that fails from the Unauthenticated state. -/
theorem auth_state_machine :
    (∀ rr, is_authenticated (newAuthManager false rr) = false) ∧
    (∀ fe rr m m', load_existing_token fe rr m = .ok (m', true) →
      is_authenticated m' = true) ∧
    (∀ sr oOk wOk m f m' f',
      authenticate_with_token sr oOk wOk m f = .ok (m', f', true) →
      is_authenticated m' = true) ∧
    (∀ sr oOk wOk m f m' f', is_authenticated m = false →
      authenticate_with_token sr oOk wOk m f = .ok (m', f', false) →
      is_authenticated m' = false) := by
  refine ⟨fun rr => rfl, ?_, ?_, ?_⟩
  · intro fe rr m m' h
    cases fe with
    | false => simp [load_existing_token] at h
    | true =>
      cases rr with
      | error e => simp [load_existing_token] at h
      | ok s =>
        simp only [load_existing_token, if_true] at h
        injection h with h
        injection h with h1 h2
        rw [← h1]
        rfl
  · intro sr oOk wOk m f m' f' h
    cases sr with
    | error e => simp [authenticate_with_token] at h
    | ok data =>
      obtain ⟨atok, un⟩ := data
      cases atok with
      | none => simp [authenticate_with_token] at h
      | some tok =>
        cases oOk with
        | false => simp [authenticate_with_token] at h
        | true =>
          cases wOk with
          | false => simp [authenticate_with_token] at h
          | true =>
            simp only [authenticate_with_token, if_true] at h
            injection h with h
            injection h with h1 h2
            rw [← h1]
            rfl
  · intro sr oOk wOk m f m' f' hm h
    cases sr with
    | error e =>
      simp only [authenticate_with_token] at h
      injection h with h
      injection h with h1 h2
      rw [← h1]
      rfl
    | ok data =>
      obtain ⟨atok, un⟩ := data
      cases atok with
      | none =>
        simp only [authenticate_with_token] at h
        injection h with h
        injection h with h1 h2
        rw [← h1]
        rfl
      | some tok =>
        cases oOk with
        | false =>
          simp only [authenticate_with_token, Bool.false_eq_true, if_false] at h
          injection h with h
          injection h with h1 h2
          rw [← h1]
          rfl
        | true =>
          cases wOk with
          | false =>
            simp only [authenticate_with_token, Bool.false_eq_true, if_false, if_true] at h
            injection h with h
            injection h with h1 h2
            rw [← h1]
            rfl
          | true => simp [authenticate_with_token] at h

/-- Witness for C1 at concrete inputs: a fresh manager with no file is
unauthenticated; a successful load and a successful exchange yield
authenticated managers; a failed exchange from Unauthenticated yields an
unauthenticated one. -/
theorem auth_state_machine_witness :
    is_authenticated (newAuthManager false (.error "no file")) = false ∧
    is_authenticated (⟨some "tok", some "tok", true⟩ : AuthManager) = true ∧
    is_authenticated (⟨some "new", some "new", true⟩ : AuthManager) = true ∧
    is_authenticated (⟨none, none, false⟩ : AuthManager) = false := by
  obtain ⟨h1, h2, h3, h4⟩ := auth_state_machine
  refine ⟨h1 (.error "no file"), ?_, ?_, ?_⟩
  · exact h2 true (.ok "tok") ⟨none, none, false⟩ ⟨some "tok", some "tok", true⟩ rfl
  · exact h3 (.ok ⟨some "new", some "u"⟩) true true ⟨none, none, false⟩ none
      ⟨some "new", some "new", true⟩ (some "new") rfl
  · exact h4 (.error "net down") true true ⟨none, none, false⟩ none
      ⟨none, none, false⟩ none rfl rfl

-- ============================================================
-- C9: frame of a failed generate_session call
-- ============================================================

/-- C9: when the token-exchange network call itself raises, the in-memory
`access_token` and the token installed on the SDK client are unchanged,
the credential file is untouched, the call returns `False`, and
`is_authenticated()` becomes false — so a previously installed token stays
installed while the manager reports unauthenticated. -/
theorem session_error_frame (e : String) (oOk wOk : Bool) (m : AuthManager)
    (f : Option String) :
    ∃ m', authenticate_with_token (.error e) oOk wOk m f = .ok (m', f, false) ∧
      m'.access_token = m.access_token ∧ m'.kiteToken = m.kiteToken ∧
      is_authenticated m' = false :=
  ⟨⟨m.access_token, m.kiteToken, false⟩, rfl, rfl, rfl, rfl⟩

-- ============================================================
-- C2: unauthenticated fetch_and_save_data is a no-op
-- ============================================================

/-- C2: when `is_authenticated()` is false, `fetch_and_save_data` returns
the failure value `False` with the file system exactly as before (no
directory created, no CSV written), no symbol visited and zero provider
download calls. -/
theorem unauthenticated_fetch_noop (env : FetchEnv) (auth : AuthManager)
    (fs : StorageFS) (days : Nat) (h : is_authenticated auth = false) :
    fetch_and_save_data env auth fs days = .ok (fs, false, [], 0, 0) := by
  simp [fetch_and_save_data, h]

/-- Witness for C2: a concrete unauthenticated manager and file system. -/
theorem unauthenticated_fetch_noop_witness :
    is_authenticated (⟨none, none, false⟩ : AuthManager) = false ∧
    fetch_and_save_data ⟨fun _ _ => .ok [], fun _ => true, true⟩
      ⟨none, none, false⟩ ⟨false, []⟩ 365 = .ok (⟨false, []⟩, false, [], 0, 0) :=
  ⟨rfl, unauthenticated_fetch_noop _ _ _ _ rfl⟩

-- ============================================================
-- C5: failed authenticate_with_token and the credential file
-- ============================================================

/-- C5 counterexample: a token exchange that succeeds at the network level
but whose credential-file WRITE fails is a failing call (`False`,
`authenticated = false`), yet `open(Config.TOKEN_FILE, 'w')` has already
truncated the file: its content changes from `OLD` to the empty string,
refuting "the credential file's contents are exactly what they were
before the call" for every failing call. -/
theorem auth_failure_file_counterexample :
    authenticate_with_token (.ok ⟨some "NEWTOKEN", some "user"⟩) true false
        ⟨none, none, false⟩ (some "OLD")
      = .ok (⟨some "NEWTOKEN", some "NEWTOKEN", false⟩, some "", false) ∧
    (some "" : Option String) ≠ some "OLD" :=
  ⟨rfl, by decide⟩

/-- The failure occurs before the credential-file write: the network call
raised, the response lacks the token key, or the file open itself failed
(an open that fails does not truncate). -/
def authFailsEarly (sr : Except String SessionData) (openOk : Bool) : Prop :=
  (∃ e, sr = .error e) ∨ (∃ d, sr = .ok d ∧ d.access_token = none) ∨ openOk = false

/-- C5 (amended): every failing `authenticate_with_token` returns `False`
with `authenticated = false`; and whenever the failure occurs before the
credential-file write (network error, rejected token, malformed response,
or a failing open), the credential file is unchanged.  (A failure of the
write itself still reports failure but leaves the file truncated, see the
counterexample.) -/
theorem auth_failure_amended (sr : Except String SessionData) (oOk wOk : Bool)
    (m : AuthManager) (f : Option String) :
    (∀ m' f', authenticate_with_token sr oOk wOk m f = .ok (m', f', false) →
      is_authenticated m' = false) ∧
    (authFailsEarly sr oOk →
      ∃ m', authenticate_with_token sr oOk wOk m f = .ok (m', f, false) ∧
        is_authenticated m' = false) := by
  constructor
  · intro m' f' h
    cases sr with
    | error e =>
      simp only [authenticate_with_token] at h
      injection h with h
      injection h with h1 h2
      rw [← h1]
      rfl
    | ok data =>
      obtain ⟨atok, un⟩ := data
      cases atok with
      | none =>
        simp only [authenticate_with_token] at h
        injection h with h
        injection h with h1 h2
        rw [← h1]
        rfl
      | some tok =>
        cases oOk with
        | false =>
          simp only [authenticate_with_token, Bool.false_eq_true, if_false] at h
          injection h with h
          injection h with h1 h2
          rw [← h1]
          rfl
        | true =>
          cases wOk with
          | false =>
            simp only [authenticate_with_token, Bool.false_eq_true, if_false,
              if_true] at h
            injection h with h
            injection h with h1 h2
            rw [← h1]
            rfl
          | true => simp [authenticate_with_token] at h
  · intro hearly
    cases sr with
    | error e => exact ⟨⟨m.access_token, m.kiteToken, false⟩, rfl, rfl⟩
    | ok data =>
      obtain ⟨atok, un⟩ := data
      cases atok with
      | none => exact ⟨⟨m.access_token, m.kiteToken, false⟩, rfl, rfl⟩
      | some tok =>
        have hoOk : oOk = false := by
          rcases hearly with ⟨e, he⟩ | ⟨d, hd, hda⟩ | h
          · cases he
          · injection hd with hd; rw [← hd] at hda; cases hda
          · exact h
        subst hoOk
        exact ⟨⟨some tok, some tok, false⟩, rfl, rfl⟩

/-- Witness for C5 (amended) at a concrete early failure: a network error
leaves the credential file `OLD` untouched and the manager unauthenticated. -/
theorem auth_failure_amended_witness :
    is_authenticated (⟨none, none, false⟩ : AuthManager) = false ∧
    (∃ m', authenticate_with_token (.error "boom") true true ⟨none, none, false⟩
        (some "OLD") = .ok (m', some "OLD", false) ∧ is_authenticated m' = false) := by
  obtain ⟨h1, h2⟩ :=
    auth_failure_amended (.error "boom") true true ⟨none, none, false⟩ (some "OLD")
  exact ⟨h1 ⟨none, none, false⟩ (some "OLD") rfl, h2 (Or.inl ⟨"boom", rfl⟩)⟩

-- ============================================================
-- C4: which operations can raise
-- ============================================================

theorem load_existing_token_isOk (fe : Bool) (rr : Except String String)
    (m : AuthManager) : exceptOk (load_existing_token fe rr m) = true := by
  cases fe <;> cases rr <;> rfl

theorem authenticate_with_token_isOk (sr : Except String SessionData)
    (oOk wOk : Bool) (m : AuthManager) (f : Option String) :
    exceptOk (authenticate_with_token sr oOk wOk m f) = true := by
  cases sr with
  | error e => rfl
  | ok data =>
    obtain ⟨atok, un⟩ := data
    cases atok with
    | none => rfl
    | some tok => cases oOk <;> cases wOk <;> rfl

theorem fetch_historical_data_isOk (dr : String → Nat → Except String (List RawRow))
    (s : String) (days : Nat) : exceptOk (fetch_historical_data dr s days) = true := by
  unfold fetch_historical_data
  cases dr (resolveTicker s) days with
  | error e => rfl
  | ok rows => cases rows <;> rfl

theorem save_data_to_csv_isOk (wOk : Bool) (s : String) (data : Option (List Candle))
    (fs : StorageFS) : exceptOk (save_data_to_csv wOk s data fs) = true := by
  match data with
  | none => rfl
  | some [] => rfl
  | some (c :: cs) => cases wOk <;> rfl

theorem load_csv_isOk (rOk : Bool) (fs : StorageFS) (s : String) :
    ∃ v, load_csv rOk fs s = .ok v := by
  unfold load_csv
  cases hg : fs.getFile (s ++ ".csv") with
  | none => exact ⟨none, rfl⟩
  | some lines =>
    cases rOk with
    | false => exact ⟨none, by simp⟩
    | true =>
      cases lines with
      | nil => exact ⟨some [], by simp⟩
      | cons hdr body =>
        cases hp : parseRows hdr body with
        | none => exact ⟨none, by simp [hp]⟩
        | some data => exact ⟨some data, by simp [hp]⟩

/-- C4 counterexample: `setup_directories` has no exception handling around
`os.makedirs`; when the directory is absent and the call fails, the
exception escapes the component, refuting "setup_directories ... never
raise". -/
theorem error_policy_counterexample :
    setup_directories false ⟨false, []⟩ = .error "makedirs failed" := rfl

theorem mem_insertSorted (x y : String) (l : List String) :
    y ∈ insertSorted x l ↔ y = x ∨ y ∈ l := by
  induction l with
  | nil => simp [insertSorted]
  | cons z zs ih =>
    by_cases h : x ≤ z
    · simp [insertSorted, h]
    · simp only [insertSorted, h, decide_eq_true_eq, if_false, List.mem_cons, ih]
      tauto

theorem mem_sortStrings (y : String) (l : List String) :
    y ∈ sortStrings l ↔ y ∈ l := by
  induction l with
  | nil => simp [sortStrings]
  | cons x xs ih => simp [sortStrings, mem_insertSorted, ih]

/-- The unguarded per-file loop of `get_status_report` propagates a
`getsize` or `readlines` failure of any listed file. -/
theorem statLoop_error (o : StatusOracle) :
    ∀ l : List String,
      (∃ f ∈ l, exceptOk (o.sizeResult f) = false ∨
        exceptOk (o.lineResult f) = false) →
      exceptOk (statLoop o l) = false := by
  intro l
  induction l with
  | nil => rintro ⟨f, hf, -⟩; cases hf
  | cons g rest ih =>
    rintro ⟨f, hf, hfail⟩
    cases hsz : o.sizeResult g with
    | error e => simp [statLoop, hsz, Bind.bind, Except.bind, exceptOk]
    | ok sz =>
      cases hln : o.lineResult g with
      | error e => simp [statLoop, hsz, hln, Bind.bind, Except.bind, exceptOk]
      | ok ln =>
        have hf' : f ∈ rest := by
          rcases List.mem_cons.mp hf with hfg | h
          · subst hfg
            rcases hfail with h | h
            · rw [hsz] at h; simp [exceptOk] at h
            · rw [hln] at h; simp [exceptOk] at h
          · exact h
        have hrec := ih ⟨f, hf', hfail⟩
        cases hrest : statLoop o rest with
        | error e =>
          simp [statLoop, hsz, hln, hrest, Bind.bind, Except.bind, exceptOk]
        | ok others => rw [hrest] at hrec; simp [exceptOk] at hrec

/-- C4 (amended): the operations that wrap their external calls in
`try/except` — `load_existing_token`, `authenticate_with_token`,
`fetch_historical_data`, `save_data_to_csv`, `load_csv` — convert every
external failure into a local boolean/sentinel outcome and never raise.
But `setup_directories` and `get_status_report` do NOT guard their
filesystem calls: `setup_directories` raises EXACTLY when the directory is
absent and `makedirs` fails, and `get_status_report`, whenever the
directory exists, propagates a `listdir` failure and any `getsize` or
`readlines` failure on a listed `.csv` file. -/
theorem error_policy_amended :
    (∀ fe rr m, exceptOk (load_existing_token fe rr m) = true) ∧
    (∀ sr oOk wOk m f, exceptOk (authenticate_with_token sr oOk wOk m f) = true) ∧
    (∀ dr s days, exceptOk (fetch_historical_data dr s days) = true) ∧
    (∀ wOk s data fs, exceptOk (save_data_to_csv wOk s data fs) = true) ∧
    (∀ rOk fs s, exceptOk (load_csv rOk fs s) = true) ∧
    (∀ mOk fs, exceptOk (setup_directories mOk fs) = false ↔
      fs.dirExists = false ∧ mOk = false) ∧
    (∀ o fs, fs.dirExists = true → o.listdirOk = false →
      exceptOk (get_status_report o fs) = false) ∧
    (∀ o fs f, fs.dirExists = true → o.listdirOk = true →
      f ∈ (fs.files.map (fun p => p.1)).filter endsCsv →
      (exceptOk (o.sizeResult f) = false ∨ exceptOk (o.lineResult f) = false) →
      exceptOk (get_status_report o fs) = false) := by
  refine ⟨load_existing_token_isOk, authenticate_with_token_isOk,
    fetch_historical_data_isOk, save_data_to_csv_isOk, ?_, ?_, ?_, ?_⟩
  · intro rOk fs s
    obtain ⟨v, hv⟩ := load_csv_isOk rOk fs s
    rw [hv]
    rfl
  · intro mOk fs
    constructor
    · intro h
      by_cases hd : fs.dirExists = true
      · simp [setup_directories, hd, exceptOk] at h
      · rw [Bool.not_eq_true] at hd
        cases hmk : mOk with
        | true => simp [setup_directories, hd, hmk, exceptOk] at h
        | false => exact ⟨hd, rfl⟩
    · rintro ⟨hd, hmk⟩
      subst hmk
      simp [setup_directories, hd, exceptOk]
  · intro o fs h1 h2
    simp only [get_status_report, h1, h2, Bool.true_eq_false, if_false,
      Bool.false_eq_true]
    rfl
  · intro o fs f h1 h2 hf hfail
    obtain ⟨ld, szf, lnf⟩ := o
    have hstat : exceptOk (statLoop ⟨ld, szf, lnf⟩
        (sortStrings ((fs.files.map (fun p => p.1)).filter endsCsv))) = false :=
      statLoop_error _ _ ⟨f, (mem_sortStrings _ _).mpr hf, hfail⟩
    simp only [get_status_report, h1, Bool.true_eq_false, if_false] at *
    rw [show ld = true from h2]
    cases hsl : statLoop ⟨ld, szf, lnf⟩
        (sortStrings ((fs.files.map (fun p => p.1)).filter endsCsv)) with
    | error e =>
      rw [show ld = true from h2] at hsl
      simp [hsl, Bind.bind, Except.bind, exceptOk]
    | ok infos =>
      rw [hsl] at hstat
      simp [exceptOk] at hstat

/-- Witness for C4 (amended) at concrete inputs for every conjunct. -/
theorem error_policy_amended_witness :
    exceptOk (load_existing_token false (.error "x") ⟨none, none, false⟩) = true ∧
    exceptOk (authenticate_with_token (.error "x") true true ⟨none, none, false⟩ none)
      = true ∧
    exceptOk (fetch_historical_data (fun _ _ => .error "net") "TCS" 30) = true ∧
    exceptOk (save_data_to_csv true "TCS" none ⟨true, []⟩) = true ∧
    exceptOk (load_csv true ⟨true, []⟩ "TCS") = true ∧
    (exceptOk (setup_directories false ⟨false, []⟩) = false ↔
      (⟨false, []⟩ : StorageFS).dirExists = false ∧ false = false) ∧
    exceptOk (get_status_report ⟨false, fun _ => .ok 0, fun _ => .ok 0⟩ ⟨true, []⟩)
      = false ∧
    exceptOk (get_status_report ⟨true, fun _ => .error "size", fun _ => .ok 0⟩
      ⟨true, [("A.csv", [])]⟩) = false := by
  obtain ⟨h1, h2, h3, h4, h5, h6, h7, h8⟩ := error_policy_amended
  exact ⟨h1 false (.error "x") ⟨none, none, false⟩,
    h2 (.error "x") true true ⟨none, none, false⟩ none,
    h3 (fun _ _ => .error "net") "TCS" 30,
    h4 true "TCS" none ⟨true, []⟩,
    h5 true ⟨true, []⟩ "TCS",
    h6 false ⟨false, []⟩,
    h7 ⟨false, fun _ => .ok 0, fun _ => .ok 0⟩ ⟨true, []⟩ rfl rfl,
    h8 ⟨true, fun _ => .error "size", fun _ => .ok 0⟩ ⟨true, [("A.csv", [])]⟩
      "A.csv" rfl rfl (by decide) (Or.inl rfl)⟩

-- ============================================================
-- C10: analyze_data is total
-- ============================================================

theorem getLast?_cons_ne_none : ∀ (xs : List ℚ) (x : ℚ), (x :: xs).getLast? ≠ none := by
  intro xs
  induction xs with
  | nil => intro x; simp
  | cons y ys ih => intro x; rw [List.getLast?_cons_cons]; exact ih y

theorem pyLast_cons (x : ℚ) (xs : List ℚ) : ∃ v, pyLast (x :: xs) = .ok v := by
  cases h : (x :: xs).getLast? with
  | none => exact absurd h (getLast?_cons_ne_none xs x)
  | some v => exact ⟨v, by simp [pyLast, h]⟩

theorem analyzeSymbol_isOk (readOk : Bool) (fs : StorageFS) (s : String) :
    ∃ v, analyzeSymbol readOk fs s = .ok v := by
  obtain ⟨dataOpt, hload⟩ := load_csv_isOk readOk fs s
  cases dataOpt with
  | none => exact ⟨none, by simp [analyzeSymbol, hload, Bind.bind, Except.bind]⟩
  | some data =>
    cases data with
    | nil => exact ⟨none, by simp [analyzeSymbol, hload, Bind.bind, Except.bind]⟩
    | cons d ds =>
      obtain ⟨v, hv⟩ := pyLast_cons d.close (ds.map (fun d => d.close))
      refine ⟨some ⟨(d :: ds).length, (ds.map (fun d => d.close)).foldl min d.close,
        (ds.map (fun d => d.close)).foldl max d.close, v⟩, ?_⟩
      simp only [analyzeSymbol, hload, Bind.bind, Except.bind, List.map_cons,
        pyMin, pyMax]
      rw [hv]

/-- C10: `analyze_data` never evaluates `min`, `max`, or the last element
on an empty series — for every combination of absent, unparseable, empty
and non-empty per-symbol files (any `fs` and read outcome), the embedded
`min`/`max`/`[-1]` (which raise on empty input) are only ever reached on
non-empty data, so the whole analysis completes without error. -/
theorem analyze_data_total (readOk : Bool) (fs : StorageFS) :
    exceptOk (analyze_data readOk fs) = true := by
  unfold analyze_data
  have hgen : ∀ syms : List String, exceptOk (analyzeLoop readOk fs syms) = true := by
    intro syms
    induction syms with
    | nil => rfl
    | cons s rest ih =>
      obtain ⟨v, hv⟩ := analyzeSymbol_isOk readOk fs s
      cases hrest : analyzeLoop readOk fs rest with
      | error e => rw [hrest] at ih; cases ih
      | ok others =>
        simp [analyzeLoop, hv, hrest, Bind.bind, Except.bind, exceptOk]
  exact hgen Config.STOCKS

-- ============================================================
-- C6: malformed numeric field aborts the whole load
-- ============================================================

/-- A numeric float field of the row exists in the dict but fails `float`
coercion. -/
def fieldFailsFloat (hdr row : List String) (name : String) : Bool :=
  match rowDict hdr row name with
  | some s => (parseFloat s).isNone
  | none => false

/-- The volume field exists in the dict but fails `int` coercion. -/
def fieldFailsInt (hdr row : List String) : Bool :=
  match rowDict hdr row "volume" with
  | some s => (parseNat s).isNone
  | none => false

/-- The row has a malformed numeric field in the sense of the claim. -/
def hasMalformedNumeric (hdr row : List String) : Bool :=
  fieldFailsFloat hdr row "open" || fieldFailsFloat hdr row "high" ||
  fieldFailsFloat hdr row "low" || fieldFailsFloat hdr row "close" ||
  fieldFailsInt hdr row

theorem fieldFailsFloat_parseField (hdr row : List String) (name : String)
    (h : fieldFailsFloat hdr row name = true) : parseField hdr row name = none := by
  unfold fieldFailsFloat at h
  cases hrd : rowDict hdr row name with
  | none => rw [hrd] at h; cases h
  | some s =>
    rw [hrd] at h
    rw [Option.isNone_iff_eq_none] at h
    simp [parseField, hrd, h]

theorem fieldFailsInt_parse (hdr row : List String)
    (h : fieldFailsInt hdr row = true) : (rowDict hdr row "volume").bind parseNat = none := by
  unfold fieldFailsInt at h
  cases hrd : rowDict hdr row "volume" with
  | none => rw [hrd] at h; cases h
  | some s =>
    rw [hrd] at h
    rw [Option.isNone_iff_eq_none] at h
    simp [hrd, h]

theorem parseRow_eq_some (hdr row : List String) (c : LoadedCandle)
    (h : parseRow hdr row = some c) :
    (∃ v, parseField hdr row "open" = some v) ∧
    (∃ v, parseField hdr row "high" = some v) ∧
    (∃ v, parseField hdr row "low" = some v) ∧
    (∃ v, parseField hdr row "close" = some v) ∧
    (∃ v, (rowDict hdr row "volume").bind parseNat = some v) := by
  simp only [parseRow, Option.bind_eq_some] at h
  obtain ⟨d, hd, o, ho, hh, hhh, l, hl, cc, hc, v, hv, _⟩ := h
  exact ⟨⟨o, ho⟩, ⟨hh, hhh⟩, ⟨l, hl⟩, ⟨cc, hc⟩, ⟨v, Option.bind_eq_some.mpr hv⟩⟩

theorem parseRow_none_of_malformed (hdr row : List String)
    (hbad : hasMalformedNumeric hdr row = true) : parseRow hdr row = none := by
  cases hp : parseRow hdr row with
  | none => rfl
  | some c =>
    exfalso
    obtain ⟨⟨o, ho⟩, ⟨hh, hhh⟩, ⟨l, hl⟩, ⟨cc, hc⟩, ⟨v, hv⟩⟩ :=
      parseRow_eq_some hdr row c hp
    unfold hasMalformedNumeric at hbad
    rcases Bool.or_eq_true_iff.mp hbad with hbad | hbad5
    rotate_left
    · rw [fieldFailsInt_parse hdr row hbad5] at hv; cases hv
    rcases Bool.or_eq_true_iff.mp hbad with hbad | hbad4
    rotate_left
    · rw [fieldFailsFloat_parseField hdr row "close" hbad4] at hc; cases hc
    rcases Bool.or_eq_true_iff.mp hbad with hbad | hbad3
    rotate_left
    · rw [fieldFailsFloat_parseField hdr row "low" hbad3] at hl; cases hl
    rcases Bool.or_eq_true_iff.mp hbad with hbad1 | hbad2
    · rw [fieldFailsFloat_parseField hdr row "open" hbad1] at ho; cases ho
    · rw [fieldFailsFloat_parseField hdr row "high" hbad2] at hhh; cases hhh

theorem parseRows_none (hdr : List String) (body : List (List String))
    (r : List String) (hr : r ∈ body) (hnone : parseRow hdr r = none) :
    parseRows hdr body = none := by
  induction body with
  | nil => cases hr
  | cons b bs ih =>
    rcases List.mem_cons.mp hr with hrb | hrbs
    · subst hrb
      simp [parseRows, hnone]
    · cases h2 : parseRow hdr b with
      | none => simp [parseRows, h2]
      | some c => simp [parseRows, h2, ih hrbs]

/-- C6: when the present CSV file has a data row with a malformed numeric
field (a field on which the `float`/`int` coercion fails), `load_csv`
returns the failure sentinel `None` — rows parsed before the malformed
one are discarded, never returned. -/
theorem load_csv_malformed_none (readOk : Bool) (fs : StorageFS) (symbol : String)
    (hdr : List String) (body : List (List String)) (r : List String)
    (hfile : fs.getFile (symbol ++ ".csv") = some (hdr :: body))
    (hr : r ∈ body) (hbad : hasMalformedNumeric hdr r = true) :
    load_csv readOk fs symbol = .ok none := by
  have hnone := parseRow_none_of_malformed hdr r hbad
  have hrows := parseRows_none hdr body r hr hnone
  cases readOk with
  | false => simp [load_csv, hfile]
  | true => simp [load_csv, hfile, hrows]

/-- Witness for C6: a one-row file whose `open` cell is `abc`. -/
theorem load_csv_malformed_none_witness :
    (⟨true, [("TCS.csv", [headerRow, ["2024-01-02", "abc", "1.0", "1.0", "1.0", "10"]])]⟩
        : StorageFS).getFile ("TCS" ++ ".csv")
      = some (headerRow :: [["2024-01-02", "abc", "1.0", "1.0", "1.0", "10"]]) ∧
    ["2024-01-02", "abc", "1.0", "1.0", "1.0", "10"]
      ∈ [["2024-01-02", "abc", "1.0", "1.0", "1.0", "10"]] ∧
    hasMalformedNumeric headerRow ["2024-01-02", "abc", "1.0", "1.0", "1.0", "10"] = true ∧
    load_csv true
      ⟨true, [("TCS.csv", [headerRow, ["2024-01-02", "abc", "1.0", "1.0", "1.0", "10"]])]⟩
      "TCS" = .ok none := by
  have hfile : (⟨true, [("TCS.csv",
        [headerRow, ["2024-01-02", "abc", "1.0", "1.0", "1.0", "10"]])]⟩
        : StorageFS).getFile ("TCS" ++ ".csv")
      = some (headerRow :: [["2024-01-02", "abc", "1.0", "1.0", "1.0", "10"]]) := by
    decide
  have hmem : ["2024-01-02", "abc", "1.0", "1.0", "1.0", "10"]
      ∈ [["2024-01-02", "abc", "1.0", "1.0", "1.0", "10"]] := by decide
  have hbad : hasMalformedNumeric headerRow
      ["2024-01-02", "abc", "1.0", "1.0", "1.0", "10"] = true := by decide
  exact ⟨hfile, hmem, hbad,
    load_csv_malformed_none true _ "TCS" headerRow _ _ hfile hmem hbad⟩

-- ============================================================
-- C3: CSV round-trip
-- ============================================================

theorem getFile_setFile (fs : StorageFS) (n : String) (c : CsvFile) :
    (fs.setFile n c).getFile n = some c := by
  obtain ⟨d, files⟩ := fs
  simp only [StorageFS.setFile, StorageFS.getFile]
  induction files with
  | nil => simp [setAssoc]
  | cons p rest ih =>
    obtain ⟨k, v⟩ := p
    by_cases hk : (k == n) = true
    · simp [setAssoc, hk]
    · simp only [setAssoc, hk, Bool.false_eq_true, if_false]
      rw [List.find?_cons_of_neg _ (by simpa using hk)]
      exact ih

/-- The in-memory candle a round trip through CSV text produces: the same
date string, the exact rational price values, the same volume. -/
def toLoaded (c : Candle) : LoadedCandle :=
  ⟨c.date, c.open_.val, c.high.val, c.low.val, c.close.val, c.volume⟩

theorem parseRow_renderCandle (c : Candle) :
    parseRow headerRow (renderCandle c) = some (toLoaded c) := by
  simp [parseRow, rowDict, findIndex, headerRow, renderCandle, parseField,
    parseFloat_renderDec, parseNat_renderNat, toLoaded]

theorem parseRows_map (cs : List Candle) :
    parseRows headerRow (cs.map renderCandle) = some (cs.map toLoaded) := by
  induction cs with
  | nil => rfl
  | cons c rest ih => simp [parseRows, parseRow_renderCandle, ih]

/-- Row-wise agreement after a round trip: equal date, open/high/low/close
within tolerance `1e-9`, exactly equal volume. -/
def roundTripMatch (c : Candle) (d : LoadedCandle) : Prop :=
  d.date = c.date ∧ |d.open_ - c.open_.val| ≤ 1 / 10 ^ 9 ∧
  |d.high - c.high.val| ≤ 1 / 10 ^ 9 ∧ |d.low - c.low.val| ≤ 1 / 10 ^ 9 ∧
  |d.close - c.close.val| ≤ 1 / 10 ^ 9 ∧ d.volume = c.volume

theorem roundTripMatch_toLoaded (c : Candle) : roundTripMatch c (toLoaded c) := by
  refine ⟨rfl, ?_, ?_, ?_, ?_, rfl⟩ <;>
    simp only [toLoaded, sub_self, abs_zero] <;> positivity

theorem forall₂_toLoaded (l : List Candle) :
    List.Forall₂ roundTripMatch l (l.map toLoaded) := by
  induction l with
  | nil => exact List.Forall₂.nil
  | cons c rest ih => exact List.Forall₂.cons (roundTripMatch_toLoaded c) ih

/-- C3: writing a non-empty candle series with `save_data_to_csv` and
reading the same file back with `load_csv` succeeds and yields a series
with the same number of rows whose open/high/low/close agree within
`1e-9` (here: exactly) and whose volumes agree exactly, row by row. -/
theorem csv_roundtrip (symbol : String) (fs : StorageFS) (cs : List Candle)
    (hne : cs ≠ []) :
    ∃ fs1 ds,
      save_data_to_csv true symbol (some cs) fs = .ok (fs1, true) ∧
      load_csv true fs1 symbol = .ok (some ds) ∧
      ds.length = cs.length ∧
      List.Forall₂ roundTripMatch cs ds := by
  match cs, hne with
  | c0 :: cs', _ =>
    refine ⟨fs.setFile (symbol ++ ".csv") (headerRow :: (c0 :: cs').map renderCandle),
      (c0 :: cs').map toLoaded, rfl, ?_, by simp, forall₂_toLoaded _⟩
    have hg := getFile_setFile fs (symbol ++ ".csv")
      (headerRow :: (c0 :: cs').map renderCandle)
    have hp := parseRows_map (c0 :: cs')
    simp only [List.map_cons] at hg hp
    simp [load_csv, hg, hp]

/-- Witness for C3: one concrete candle through the round trip. -/
theorem csv_roundtrip_witness :
    (([⟨"2024-01-02", ⟨10050, 2⟩, ⟨10125, 2⟩, ⟨9975, 2⟩, ⟨10000, 2⟩, 1234⟩]
        : List Candle) ≠ []) ∧
    (∃ fs1 ds,
      save_data_to_csv true "RELIANCE"
        (some [⟨"2024-01-02", ⟨10050, 2⟩, ⟨10125, 2⟩, ⟨9975, 2⟩, ⟨10000, 2⟩, 1234⟩])
        ⟨true, []⟩ = .ok (fs1, true) ∧
      load_csv true fs1 "RELIANCE" = .ok (some ds) ∧
      ds.length = ([⟨"2024-01-02", ⟨10050, 2⟩, ⟨10125, 2⟩, ⟨9975, 2⟩, ⟨10000, 2⟩, 1234⟩]
        : List Candle).length ∧
      List.Forall₂ roundTripMatch
        [⟨"2024-01-02", ⟨10050, 2⟩, ⟨10125, 2⟩, ⟨9975, 2⟩, ⟨10000, 2⟩, 1234⟩] ds) :=
  ⟨by simp, csv_roundtrip "RELIANCE" ⟨true, []⟩
    [⟨"2024-01-02", ⟨10050, 2⟩, ⟨10125, 2⟩, ⟨9975, 2⟩, ⟨10000, 2⟩, 1234⟩] (by simp)⟩

-- ============================================================
-- C7: get_status_report missing set
-- ============================================================

theorem contains_eq_false_iff (l : List String) (s : String) :
    l.contains s = false ↔ s ∉ l := by
  rw [← Bool.not_eq_true]
  exact not_congr List.elem_iff

theorem mem_statusMissing (files : List String) (s : String) :
    s ∈ statusMissing files ↔
      s ∈ Config.STOCKS ∧ ∀ f ∈ files, endsCsv f = true → stripCsv f ≠ s := by
  simp only [statusMissing, List.mem_filter, Bool.not_eq_true', contains_eq_false_iff]
  constructor
  · rintro ⟨h1, h2⟩
    exact ⟨h1, fun f hf he hs =>
      h2 (List.mem_map.mpr ⟨f, List.mem_filter.mpr ⟨hf, he⟩, hs⟩)⟩
  · rintro ⟨h1, h2⟩
    refine ⟨h1, fun hmem => ?_⟩
    obtain ⟨f, hf, hs⟩ := List.mem_map.mp hmem
    obtain ⟨hff, he⟩ := List.mem_filter.mp hf
    exact h2 f hff he hs

/-- The missing set as the spec words it, for comparison with the code's
`statusMissing`: configured symbols minus the set of STEMS (file name with
the final `.csv` suffix removed) of the `.csv` files present. -/
def specMissingByStems (fileNames : List String) : List String :=
  Config.STOCKS.filter
    (fun s => !(((fileNames.filter endsCsv).map
      (fun f => (⟨f.data.take (f.data.length - 4)⟩ : String))).contains s))

/-- C7 counterexample: with the single file `TCS.csv.csv` the code removes
EVERY `.csv` occurrence (`s.replace('.csv','')` gives `TCS`), so `TCS` is
not reported missing; the stem of `TCS.csv.csv` is `TCS.csv`, under which
`TCS` would be missing.  The reported missing set therefore differs from
"configured symbols minus stems". -/
theorem status_missing_counterexample :
    get_status_report ⟨true, fun _ => .ok 0, fun _ => .ok 0⟩
        ⟨true, [("TCS.csv.csv", [])]⟩
      = .ok (some ⟨[("TCS.csv.csv", 0, 0)], statusMissing ["TCS.csv.csv"]⟩) ∧
    "TCS" ∉ statusMissing ["TCS.csv.csv"] ∧
    "TCS" ∈ specMissingByStems ["TCS.csv.csv"] :=
  ⟨rfl, by decide, by decide⟩

/-- C7 (amended): the missing set reported by `get_status_report` equals
the configured symbol set minus the set of present `.csv` file names with
every `.csv` occurrence removed (which is the stem whenever `.csv` occurs
only as the final suffix), and only files ending in `.csv` are counted as
present. -/
theorem status_missing_amended (o : StatusOracle) (fs : StorageFS)
    (rep : StatusReport) (s : String)
    (h : get_status_report o fs = .ok (some rep)) :
    s ∈ rep.missing ↔
      s ∈ Config.STOCKS ∧
      ∀ f ∈ fs.files.map (fun p => p.1), endsCsv f = true → stripCsv f ≠ s := by
  have hrep : rep.missing = statusMissing (fs.files.map (fun p => p.1)) := by
    unfold get_status_report at h
    by_cases hd : fs.dirExists = false
    · rw [if_pos hd] at h
      injection h with h
      cases h
    · rw [if_neg hd] at h
      cases hld : o.listdirOk with
      | false =>
        rw [hld] at h
        simp [Bind.bind, Except.bind] at h
      | true =>
        rw [hld] at h
        simp only [if_true, Bind.bind, Except.bind] at h
        cases hsl : statLoop ⟨true, o.sizeResult, o.lineResult⟩
            (sortStrings ((fs.files.map (fun p => p.1)).filter endsCsv)) with
        | error e =>
          rw [show statLoop o = statLoop ⟨true, o.sizeResult, o.lineResult⟩ from ?_] at h
          · rw [hsl] at h
            cases h
          · cases hoo : o with
            | mk a b c => rw [hoo] at hld; cases hld; rfl
        | ok infos =>
          rw [show statLoop o = statLoop ⟨true, o.sizeResult, o.lineResult⟩ from ?_] at h
          · rw [hsl] at h
            injection h with h
            injection h with h
            rw [← h]
          · cases hoo : o with
            | mk a b c => rw [hoo] at hld; cases hld; rfl
  rw [hrep, mem_statusMissing]

/-- Witness for C7 (amended) at a concrete report. -/
theorem status_missing_amended_witness :
    "TCS" ∈ (⟨[("RELIANCE.csv", 0, 0)], statusMissing ["RELIANCE.csv"]⟩
        : StatusReport).missing ↔
      "TCS" ∈ Config.STOCKS ∧
      ∀ f ∈ (([("RELIANCE.csv", ([] : CsvFile))] : List (String × CsvFile)).map
        (fun p => p.1)), endsCsv f = true → stripCsv f ≠ "TCS" :=
  status_missing_amended ⟨true, fun _ => .ok 0, fun _ => .ok 0⟩
    ⟨true, [("RELIANCE.csv", [])]⟩
    ⟨[("RELIANCE.csv", 0, 0)], statusMissing ["RELIANCE.csv"]⟩ "TCS" rfl

-- ============================================================
-- C8: authenticated fetch_and_save_data visits every symbol
-- ============================================================

/-- The value `fetch_historical_data` returns (it never raises). -/
def fetchOutcome (dr : String → Nat → Except String (List RawRow)) (s : String)
    (days : Nat) : Option (List Candle) :=
  match dr (resolveTicker s) days with
  | .error _ => none
  | .ok rows => if rows.isEmpty then none else some (rows.map convertRow)

theorem fetch_historical_eq (dr : String → Nat → Except String (List RawRow))
    (s : String) (days : Nat) :
    fetch_historical_data dr s days = .ok (fetchOutcome dr s days) := by
  unfold fetch_historical_data fetchOutcome
  cases dr (resolveTicker s) days with
  | error e => rfl
  | ok rows => cases rows <;> rfl

/-- The boolean `save_data_to_csv` returns. -/
def saveFlag (wOk : Bool) (data : Option (List Candle)) : Bool :=
  match data with
  | none => false
  | some [] => false
  | some (_ :: _) => wOk

theorem save_eq (wOk : Bool) (s : String) (data : Option (List Candle))
    (fs : StorageFS) :
    ∃ fs', save_data_to_csv wOk s data fs = .ok (fs', saveFlag wOk data) := by
  match data with
  | none => exact ⟨fs, rfl⟩
  | some [] => exact ⟨fs, rfl⟩
  | some (c :: cs) =>
    cases wOk with
    | false => exact ⟨fs, rfl⟩
    | true =>
      exact ⟨fs.setFile (s ++ ".csv") (headerRow :: (c :: cs).map renderCandle), rfl⟩

theorem saveFlag_fetchOutcome (env : FetchEnv) (days : Nat) (s : String) :
    saveFlag (env.saveOk s) (fetchOutcome env.downloadResult s days) =
      symbolSucceeds env days s := by
  unfold saveFlag fetchOutcome symbolSucceeds
  cases env.downloadResult (resolveTicker s) days with
  | error e => rfl
  | ok rows => cases rows <;> rfl

theorem fetchLoop_spec (env : FetchEnv) (days : Nat) :
    ∀ (syms : List String) (fs : StorageFS),
      ∃ fs', fetchLoop env days syms fs =
        .ok (fs', syms, syms.length, (syms.filter (symbolSucceeds env days)).length) := by
  intro syms
  induction syms with
  | nil => intro fs; exact ⟨fs, rfl⟩
  | cons s rest ih =>
    intro fs
    have hf := fetch_historical_eq env.downloadResult s days
    obtain ⟨fs1, hsave⟩ := save_eq (env.saveOk s) s (fetchOutcome env.downloadResult s days) fs
    obtain ⟨fs2, hrest⟩ := ih fs1
    refine ⟨fs2, ?_⟩
    simp only [fetchLoop, Bind.bind, Except.bind, hf, hsave, hrest,
      saveFlag_fetchOutcome, List.filter_cons]
    by_cases hs : symbolSucceeds env days s = true
    · simp [hs]
      omega
    · rw [Bool.not_eq_true] at hs
      simp [hs]

/-- C8 counterexample: an authenticated run in which the storage directory
is absent and `os.makedirs` fails.  The UNGUARDED `setup_directories` call
(line 304) raises, the exception propagates out of `fetch_and_save_data`,
and no symbol is visited — refuting "for every authenticated run, the
iteration visits every symbol of the configured list exactly once". -/
theorem fetch_all_iteration_counterexample :
    is_authenticated (⟨some "t", some "t", true⟩ : AuthManager) = true ∧
    fetch_and_save_data ⟨fun _ _ => .ok [], fun _ => true, false⟩
      ⟨some "t", some "t", true⟩ ⟨false, []⟩ 30 = .error "makedirs failed" :=
  ⟨rfl, rfl⟩

/-- C8 (amended): every authenticated run of `fetch_and_save_data` in
which the unguarded `setup_directories` step does not raise (the storage
directory exists or `os.makedirs` succeeds) visits every configured
symbol exactly once, in order, issuing one provider download per symbol
regardless of individual failures, and the reported success count is the
number of symbols whose fetch-then-save pair succeeded, out of the
`Config.STOCKS.length` total. -/
theorem fetch_all_iteration (env : FetchEnv) (auth : AuthManager) (fs : StorageFS)
    (days : Nat) (hauth : is_authenticated auth = true)
    (hdir : fs.dirExists = true ∨ env.makedirsOk = true) :
    ∃ fs', fetch_and_save_data env auth fs days =
      .ok (fs', true, Config.STOCKS, Config.STOCKS.length,
        (Config.STOCKS.filter (symbolSucceeds env days)).length) := by
  have hsetup : ∃ fs1, setup_directories env.makedirsOk fs = .ok (fs1, true) := by
    by_cases hde : fs.dirExists = true
    · exact ⟨fs, by simp [setup_directories, hde]⟩
    · rcases hdir with h | h
      · exact absurd h hde
      · refine ⟨⟨true, fs.files⟩, ?_⟩
        rw [Bool.not_eq_true] at hde
        simp [setup_directories, hde, h]
  obtain ⟨fs1, hs⟩ := hsetup
  obtain ⟨fs2, hl⟩ := fetchLoop_spec env days Config.STOCKS fs1
  refine ⟨fs2, ?_⟩
  simp [fetch_and_save_data, hauth, hs, hl, Bind.bind, Except.bind]

/-- Witness for C8 (amended): a concrete environment where `makedirs`
succeeds, the download for `TCS` fails and every other symbol
round-trips, run from an authenticated manager on an empty storage area. -/
theorem fetch_all_iteration_witness :
    is_authenticated (⟨some "t", some "t", true⟩ : AuthManager) = true ∧
    (∃ fs', fetch_and_save_data
        ⟨fun t _ => if t == "TCS.NS" then .error "boom"
          else .ok [⟨"2024-01-02", ⟨1, 0⟩, ⟨1, 0⟩, ⟨1, 0⟩, ⟨1, 0⟩, 5, true⟩],
         fun _ => true, true⟩
        ⟨some "t", some "t", true⟩ ⟨false, []⟩ 30 =
      .ok (fs', true, Config.STOCKS, Config.STOCKS.length,
        (Config.STOCKS.filter (symbolSucceeds
          ⟨fun t _ => if t == "TCS.NS" then .error "boom"
            else .ok [⟨"2024-01-02", ⟨1, 0⟩, ⟨1, 0⟩, ⟨1, 0⟩, ⟨1, 0⟩, 5, true⟩],
           fun _ => true, true⟩ 30)).length)) :=
  ⟨rfl, fetch_all_iteration _ _ _ _ rfl (Or.inr rfl)⟩
